import Mathlib

/-!
Shallow embedding of `pkg/tiller/client_config.go` from the rancher-helm
repository fragment: the `DeferredLoadingClientConfig` resolver, its
constructor `NewImpersonationClientConfig`, and its methods
`createClientConfig`, `ClientConfig` and `Namespace`.

External collaborators (the clientcmd loader, the merged client-config
handle, and the in-cluster detector) are modelled as records of the results
their method calls produce. Go's `(value, error)` pairs are modelled as
products with `Option GoError`; the two nil dereferences that are reachable
in the Go code (a method call through a nil `icc` interface, and writing
through a nil `*restclient.Config`) are modelled as a `GoPanic` outcome via
`Except`. The `loadingLock` mutex only guards the lazy initialization; the
sequential embedding collapses the double-checked locking to a single
cache check, which is behaviourally what one thread observes.
-/

/-- Go panics reachable in this file: calling a method on a nil interface
value, and writing through a nil pointer. -/
inductive GoPanic where
  | nilInterfaceDispatch : GoPanic
  | nilPointerDeref : GoPanic
deriving DecidableEq, Repr

/-- `restclient.ImpersonationConfig`: the fields the source touches
(`UserName`, `Groups`) plus `Extra`, which the source leaves alone. -/
structure ImpersonationConfig where
  UserName : String
  Groups : List String
  Extra : List (String × List String)
deriving DecidableEq, Repr

/-- `restclient.Config`, reduced to the fields this file reads or writes:
the impersonation block, plus `Host` standing for the rest of the data. -/
structure RestclientConfig where
  Host : String
  Impersonate : ImpersonationConfig
deriving DecidableEq, Repr

/-- `clientcmdapi.Context`: only its `Namespace` field is consulted. -/
structure Context where
  Namespace : String
deriving DecidableEq, Repr

/-- `clientcmdapi.Config` (the raw kubeconfig): the `CurrentContext` name and
the `Contexts` map, modelled as an association list. -/
structure ClientcmdapiConfig where
  CurrentContext : String
  Contexts : List (String × Context)
deriving DecidableEq, Repr

/-- A Go `error` value, carrying whether `clientcmd.IsEmptyConfig`
classifies it as the empty-configuration condition. -/
structure GoError where
  msg : String
  emptyConfig : Bool
deriving DecidableEq, Repr

/-- `clientcmd.IsEmptyConfig`. -/
def IsEmptyConfig (e : GoError) : Bool := e.emptyConfig

/-- `v1.NamespaceDefault`. -/
def NamespaceDefault : String := "default"

/-- A `clientcmd.ClientConfig` handle (the merged client config the resolver
caches), modelled by the results its three methods return:
`ClientConfig() (*restclient.Config, error)`,
`RawConfig() (clientcmdapi.Config, error)`,
`Namespace() (string, bool, error)`. -/
structure ClientConfigIface where
  ClientConfigRes : Option RestclientConfig × Option GoError
  RawConfigRes : ClientcmdapiConfig × Option GoError
  NamespaceRes : String × Bool × Option GoError
deriving DecidableEq, Repr

/-- The `InClusterConfig` detector interface: `Possible() bool` plus the
`clientcmd.ClientConfig` methods the resolver calls on it. -/
structure InClusterConfig where
  PossibleRes : Bool
  ClientConfigRes : Option RestclientConfig × Option GoError
  NamespaceRes : String × Bool × Option GoError
deriving DecidableEq, Repr

/-- `clientcmd.ClientConfigLoader`: `Load() (*clientcmdapi.Config, error)`
and `IsDefaultConfig(*restclient.Config) bool`. -/
structure Loader where
  LoadRes : Except GoError ClientcmdapiConfig
  IsDefaultConfig : RestclientConfig → Bool

/-- `clientcmd.ConfigOverrides`: only `CurrentContext` is read here. -/
structure ConfigOverrides where
  CurrentContext : String
deriving DecidableEq, Repr

/-- An `io.Reader` handle (opaque; only its presence matters). -/
structure Reader where
  id : Nat
deriving DecidableEq, Repr

/-- The `DeferredLoadingClientConfig` struct. `clientConfig = none` is the
nil (unresolved) cache; `icc = none` is the nil detector interface. The
`loadingLock` field is omitted (see the header comment). -/
structure DeferredLoadingClientConfig where
  loader : Loader
  overrides : ConfigOverrides
  fallbackReader : Option Reader
  user : String
  groups : List String
  clientConfig : Option ClientConfigIface
  icc : Option InClusterConfig

/-- The two external `clientcmd` constructors the resolver may call to build
the merged client-config handle. -/
structure ClientcmdEnv where
  NewInteractiveClientConfig :
    ClientcmdapiConfig → String → ConfigOverrides → Reader → Loader → ClientConfigIface
  NewNonInteractiveClientConfig :
    ClientcmdapiConfig → String → ConfigOverrides → Loader → ClientConfigIface

/-- `NewImpersonationClientConfig`: the public constructor. It sets only
`loader`, `overrides`, `user` and `groups`; `fallbackReader`, `clientConfig`
and `icc` are left at their zero values (nil). -/
def NewImpersonationClientConfig (loader : Loader) (overrides : ConfigOverrides)
    (user : String) (groups : List String) : DeferredLoadingClientConfig :=
  { loader := loader, overrides := overrides, fallbackReader := none,
    user := user, groups := groups, clientConfig := none, icc := none }

/-- `createClientConfig`: return the cached handle if present; otherwise
call `loader.Load()`, propagate its error without touching the cache, else
build the interactive or non-interactive merged handle (depending on whether
`fallbackReader` is nil), cache it and return it. Returns the updated
receiver state alongside the Go result. -/
def DeferredLoadingClientConfig.createClientConfig
    (config : DeferredLoadingClientConfig) (env : ClientcmdEnv) :
    DeferredLoadingClientConfig × Except GoError ClientConfigIface :=
  match config.clientConfig with
  | some cc => (config, Except.ok cc)
  | none =>
    match config.loader.LoadRes with
    | Except.error err => (config, Except.error err)
    | Except.ok mergedConfig =>
      let mergedClientConfig :=
        match config.fallbackReader with
        | some reader =>
          env.NewInteractiveClientConfig mergedConfig config.overrides.CurrentContext
            config.overrides reader config.loader
        | none =>
          env.NewNonInteractiveClientConfig mergedConfig config.overrides.CurrentContext
            config.overrides config.loader
      ({ config with clientConfig := some mergedClientConfig },
       Except.ok mergedClientConfig)

/-- `ClientConfig`: resolve the merged handle, query its client config, then
follow the source's switch: a non-empty-classified error returns
`(nil, err)`; a non-nil, non-default result returns `(mergedConfig, nil)`;
otherwise fall through to the in-cluster check `config.icc.Possible()`
(a panic when `icc` is nil), returning `config.icc.ClientConfig()` when
possible, else writing the impersonation identity through `mergedConfig`
(a panic when that pointer is nil) and returning `(mergedConfig, err)`. -/
def DeferredLoadingClientConfig.ClientConfig
    (config : DeferredLoadingClientConfig) (env : ClientcmdEnv) :
    Except GoPanic (DeferredLoadingClientConfig × Option RestclientConfig × Option GoError) :=
  let res := config.createClientConfig env
  let config1 := res.1
  match res.2 with
  | Except.error err => Except.ok (config1, none, some err)
  | Except.ok mergedClientConfig =>
    let mergedConfig := mergedClientConfig.ClientConfigRes.1
    let err := mergedClientConfig.ClientConfigRes.2
    let earlyReturn : Option (Option RestclientConfig × Option GoError) :=
      match err with
      | some e =>
        if !IsEmptyConfig e then some (none, some e) else none
      | none =>
        match mergedConfig with
        | some mc =>
          if !config1.loader.IsDefaultConfig mc then some (some mc, none) else none
        | none => none
    match earlyReturn with
    | some r => Except.ok (config1, r)
    | none =>
      match config1.icc with
      | none => Except.error GoPanic.nilInterfaceDispatch
      | some icc =>
        if icc.PossibleRes then
          Except.ok (config1, icc.ClientConfigRes)
        else
          match mergedConfig with
          | none => Except.error GoPanic.nilPointerDeref
          | some mc =>
            Except.ok (config1,
              some { mc with Impersonate :=
                { mc.Impersonate with UserName := config1.user, Groups := config1.groups } },
              err)

/-- `Namespace`: resolve the merged handle, query its namespace, and follow
the source's short-circuiting guard
`(err != nil && !IsEmptyConfig(err)) || overridden || !config.icc.Possible()`
(the `Possible` call panics when `icc` is nil and is only reached when the
first two disjuncts are false); then the kubeconfig-namespace inspection,
falling back to `config.icc.Namespace()`. -/
def DeferredLoadingClientConfig.Namespace
    (config : DeferredLoadingClientConfig) (env : ClientcmdEnv) :
    Except GoPanic (DeferredLoadingClientConfig × String × Bool × Option GoError) :=
  let res := config.createClientConfig env
  let config1 := res.1
  match res.2 with
  | Except.error err => Except.ok (config1, "", false, some err)
  | Except.ok mergedKubeConfig =>
    let ns := mergedKubeConfig.NamespaceRes.1
    let overridden := mergedKubeConfig.NamespaceRes.2.1
    let err := mergedKubeConfig.NamespaceRes.2.2
    let hardErr : Bool :=
      match err with
      | some e => !IsEmptyConfig e
      | none => false
    if hardErr || overridden then
      Except.ok (config1, ns, overridden, err)
    else
      match config1.icc with
      | none => Except.error GoPanic.nilInterfaceDispatch
      | some icc =>
        if !icc.PossibleRes then
          Except.ok (config1, ns, overridden, err)
        else
          let fromKubeconfig : Option (String × Bool × Option GoError) :=
            if ns.length > 0 then
              if ns ≠ NamespaceDefault then some (ns, false, none)
              else
                match mergedKubeConfig.RawConfigRes with
                | (raw, none) =>
                  match List.lookup raw.CurrentContext raw.Contexts with
                  | some context =>
                    if context.Namespace.length > 0 then some (ns, false, none) else none
                  | none => none
                | (_, some _) => none
            else none
          match fromKubeconfig with
          | some r => Except.ok (config1, r)
          | none => Except.ok (config1, icc.NamespaceRes)

/-- The condition under which `ClientConfig` falls through its switch to the
in-cluster check: an empty-configuration-classified error, a nil result with
no error, or a result the loader classifies as the default config. -/
def mergedEmptyOrDefault (loader : Loader)
    (res : Option RestclientConfig × Option GoError) : Prop :=
  (∃ e, res.2 = some e ∧ IsEmptyConfig e = true) ∨
  res = (none, none) ∨
  (∃ mc, res = (some mc, none) ∧ loader.IsDefaultConfig mc = true)

/-- `createClientConfig` writes only the `clientConfig` cache field: every
other field of the receiver is returned unchanged. -/
theorem createClientConfig_fields (config : DeferredLoadingClientConfig) (env : ClientcmdEnv) :
    (config.createClientConfig env).1.loader = config.loader ∧
    (config.createClientConfig env).1.overrides = config.overrides ∧
    (config.createClientConfig env).1.fallbackReader = config.fallbackReader ∧
    (config.createClientConfig env).1.user = config.user ∧
    (config.createClientConfig env).1.groups = config.groups ∧
    (config.createClientConfig env).1.icc = config.icc := by
  unfold DeferredLoadingClientConfig.createClientConfig
  rcases h : config.clientConfig with _ | cc <;> simp
  rcases hl : config.loader.LoadRes with e | m <;> simp

/-- C5: once the cache holds a handle, `createClientConfig` returns exactly
that handle with a nil error and leaves the state unchanged, and the result
is independent of the loader, so `Load` is never consulted again. -/
theorem createClientConfig_cached (env : ClientcmdEnv)
    (config : DeferredLoadingClientConfig) (cc : ClientConfigIface)
    (h : config.clientConfig = some cc) :
    config.createClientConfig env = (config, Except.ok cc) ∧
    ∀ l2 : Loader,
      DeferredLoadingClientConfig.createClientConfig { config with loader := l2 } env
        = ({ config with loader := l2 }, Except.ok cc) := by
  constructor
  · unfold DeferredLoadingClientConfig.createClientConfig
    rw [h]
  · intro l2
    unfold DeferredLoadingClientConfig.createClientConfig
    simp [h]

/-- C6: when the cache is unset and `Load` fails, `createClientConfig`
propagates the error unchanged and leaves the state (cache included)
unchanged, so a subsequent call with a succeeding loader resolves instead of
returning a cached failure. -/
theorem createClientConfig_load_failure (env : ClientcmdEnv)
    (config : DeferredLoadingClientConfig) (e : GoError)
    (h1 : config.clientConfig = none) (h2 : config.loader.LoadRes = Except.error e) :
    config.createClientConfig env = (config, Except.error e) ∧
    ∀ (l2 : Loader) (m : ClientcmdapiConfig), l2.LoadRes = Except.ok m →
      ∃ cc, (DeferredLoadingClientConfig.createClientConfig
        { (config.createClientConfig env).1 with loader := l2 } env).2 = Except.ok cc := by
  have hfst : config.createClientConfig env = (config, Except.error e) := by
    unfold DeferredLoadingClientConfig.createClientConfig
    rw [h1, h2]
  refine ⟨hfst, ?_⟩
  intro l2 m hm
  rw [hfst]
  unfold DeferredLoadingClientConfig.createClientConfig
  rcases hr : config.fallbackReader with _ | r <;> simp [h1, hm, hr]

/-- C1: when the merged retrieval succeeds with a non-nil result that the
loader does not classify as the default config, `ClientConfig` returns that
merged config with a nil error; the in-cluster detector is never consulted
(the conclusion holds for every value of `icc`, available or not). -/
theorem ClientConfig_explicit_precedence (env : ClientcmdEnv)
    (config : DeferredLoadingClientConfig) (cc : ClientConfigIface) (mc : RestclientConfig)
    (h1 : (config.createClientConfig env).2 = Except.ok cc)
    (h2 : cc.ClientConfigRes = (some mc, none))
    (h3 : config.loader.IsDefaultConfig mc = false) :
    config.ClientConfig env
      = Except.ok ((config.createClientConfig env).1, some mc, none) := by
  have hl : (config.createClientConfig env).1.loader = config.loader :=
    (createClientConfig_fields config env).1
  unfold DeferredLoadingClientConfig.ClientConfig
  simp only [h1, h2, hl, h3]
  simp

/-- Shared helper: whenever the merged result is empty-classified, nil, or
default-classified, `ClientConfig` reaches the in-cluster check, and its
result is determined by `icc`, the identity fields, and the merged result. -/
theorem ClientConfig_fallthrough (env : ClientcmdEnv)
    (config : DeferredLoadingClientConfig) (cc : ClientConfigIface)
    (h1 : (config.createClientConfig env).2 = Except.ok cc)
    (h2 : mergedEmptyOrDefault config.loader cc.ClientConfigRes) :
    config.ClientConfig env =
      match config.icc with
      | none => Except.error GoPanic.nilInterfaceDispatch
      | some icc =>
        if icc.PossibleRes then
          Except.ok ((config.createClientConfig env).1, icc.ClientConfigRes)
        else
          match cc.ClientConfigRes.1 with
          | none => Except.error GoPanic.nilPointerDeref
          | some mc =>
            Except.ok ((config.createClientConfig env).1,
              some { mc with Impersonate :=
                { mc.Impersonate with UserName := config.user, Groups := config.groups } },
              cc.ClientConfigRes.2) := by
  obtain ⟨hl, -, -, hu, hg, hicc⟩ := createClientConfig_fields config env
  unfold DeferredLoadingClientConfig.ClientConfig
  rcases h2 with ⟨e, he, hemp⟩ | hres | ⟨mc, hres, hdef⟩
  · simp only [h1, he, hemp, hicc, hu, hg]
    try simp
  · simp only [h1, hres, hicc, hu, hg]
    try simp
  · simp only [h1, hres, hl, hdef, hicc, hu, hg]
    try simp

/-- C2: when the merged result is empty-classified, nil, or default, and the
in-cluster detector reports `Possible() = true`, `ClientConfig` returns the
detector's client-config result. -/
theorem ClientConfig_inCluster_fallback (env : ClientcmdEnv)
    (config : DeferredLoadingClientConfig) (cc : ClientConfigIface) (icc : InClusterConfig)
    (h1 : (config.createClientConfig env).2 = Except.ok cc)
    (h2 : mergedEmptyOrDefault config.loader cc.ClientConfigRes)
    (h3 : config.icc = some icc) (h4 : icc.PossibleRes = true) :
    config.ClientConfig env
      = Except.ok ((config.createClientConfig env).1, icc.ClientConfigRes) := by
  rw [ClientConfig_fallthrough env config cc h1 h2, h3]
  simp [h4]

/-- C3: the impersonation identity is written only on the final fallback
branch. The explicit branch returns exactly the merged result and the
in-cluster branch returns exactly the detector's result — neither mentions
`user`/`groups` — while the fallback branch returns the merged config with
`Impersonate.UserName`/`Groups` overwritten by the identity. -/
theorem ClientConfig_identity_scoping (env : ClientcmdEnv)
    (config : DeferredLoadingClientConfig) (cc : ClientConfigIface)
    (h1 : (config.createClientConfig env).2 = Except.ok cc) :
    (∀ mc, cc.ClientConfigRes = (some mc, none) →
       config.loader.IsDefaultConfig mc = false →
       config.ClientConfig env
         = Except.ok ((config.createClientConfig env).1, some mc, none)) ∧
    (∀ icc, config.icc = some icc → icc.PossibleRes = true →
       mergedEmptyOrDefault config.loader cc.ClientConfigRes →
       config.ClientConfig env
         = Except.ok ((config.createClientConfig env).1, icc.ClientConfigRes)) ∧
    (∀ icc mc, config.icc = some icc → icc.PossibleRes = false →
       mergedEmptyOrDefault config.loader cc.ClientConfigRes →
       cc.ClientConfigRes.1 = some mc →
       config.ClientConfig env
         = Except.ok ((config.createClientConfig env).1,
             some { mc with Impersonate :=
               { mc.Impersonate with UserName := config.user, Groups := config.groups } },
             cc.ClientConfigRes.2)) := by
  refine ⟨?_, ?_, ?_⟩
  · intro mc h2 h3
    have hl : (config.createClientConfig env).1.loader = config.loader :=
      (createClientConfig_fields config env).1
    unfold DeferredLoadingClientConfig.ClientConfig
    simp only [h1, h2, hl, h3]
    simp
  · intro icc h3 h4 h2
    rw [ClientConfig_fallthrough env config cc h1 h2, h3]
    simp [h4]
  · intro icc mc h3 h4 h2 hmc
    rw [ClientConfig_fallthrough env config cc h1 h2, h3]
    simp [h4, hmc]

/-- C4 (amended): on the empty-configuration-error path with in-cluster
unavailable, `ClientConfig` applies the identity and returns the merged
config with the retrieval error only when the merged config pointer is
non-nil; when it is nil, the write `mergedConfig.Impersonate.UserName = ...`
dereferences a nil pointer. -/
theorem ClientConfig_empty_error_fallback (env : ClientcmdEnv)
    (config : DeferredLoadingClientConfig) (cc : ClientConfigIface)
    (e : GoError) (icc : InClusterConfig)
    (h1 : (config.createClientConfig env).2 = Except.ok cc)
    (h2 : cc.ClientConfigRes.2 = some e)
    (h3 : IsEmptyConfig e = true)
    (h4 : config.icc = some icc) (h5 : icc.PossibleRes = false) :
    (∀ mc, cc.ClientConfigRes.1 = some mc →
       config.ClientConfig env
         = Except.ok ((config.createClientConfig env).1,
             some { mc with Impersonate :=
               { mc.Impersonate with UserName := config.user, Groups := config.groups } },
             some e)) ∧
    (cc.ClientConfigRes.1 = none →
       config.ClientConfig env = Except.error GoPanic.nilPointerDeref) := by
  have h2' : mergedEmptyOrDefault config.loader cc.ClientConfigRes :=
    Or.inl ⟨e, h2, h3⟩
  rw [ClientConfig_fallthrough env config cc h1 h2', h4]
  constructor
  · intro mc hmc
    simp [h5, hmc, h2]
  · intro hmc
    simp [h5, hmc]

/-- C7: when the merged namespace retrieval yields the default namespace
name, not overridden, with no hard error, and the raw config's current
context explicitly sets a non-empty namespace, `Namespace` returns
`(default, false, nil)`; the detector's namespace source is never consulted
(the conclusion does not depend on `icc.NamespaceRes`), even though the
detector reports available. -/
theorem Namespace_explicit_default (env : ClientcmdEnv)
    (config : DeferredLoadingClientConfig) (cc : ClientConfigIface)
    (icc : InClusterConfig) (raw : ClientcmdapiConfig) (context : Context)
    (err : Option GoError)
    (h1 : (config.createClientConfig env).2 = Except.ok cc)
    (h2 : cc.NamespaceRes = (NamespaceDefault, false, err))
    (h3 : err = none ∨ ∃ e, err = some e ∧ IsEmptyConfig e = true)
    (h4 : config.icc = some icc) (h5 : icc.PossibleRes = true)
    (h6 : cc.RawConfigRes = (raw, none))
    (h7 : List.lookup raw.CurrentContext raw.Contexts = some context)
    (h8 : context.Namespace.length > 0) :
    config.Namespace env
      = Except.ok ((config.createClientConfig env).1, NamespaceDefault, false, none) := by
  have hicc : (config.createClientConfig env).1.icc = config.icc :=
    (createClientConfig_fields config env).2.2.2.2.2
  unfold DeferredLoadingClientConfig.Namespace
  have hd : 0 < String.length "default" := by decide
  rcases h3 with h3 | ⟨e, h3, hemp⟩
  · simp only [h1, h2, h3, hicc, h4, h6, h7]
    simp [h5, h8, hd, NamespaceDefault]
  · simp only [h1, h2, h3, hemp, hicc, h4, h6, h7]
    simp [h5, h8, hd, NamespaceDefault]

/-- C8: when the namespace retrieval produced a hard (non-empty-classified)
error, or the namespace was explicitly overridden, or the detector reports
unavailable, `Namespace` returns the retrieved triple unchanged. -/
theorem Namespace_no_fallback (env : ClientcmdEnv)
    (config : DeferredLoadingClientConfig) (cc : ClientConfigIface)
    (ns : String) (overridden : Bool) (err : Option GoError)
    (h1 : (config.createClientConfig env).2 = Except.ok cc)
    (h0 : cc.NamespaceRes = (ns, overridden, err))
    (h2 : (∃ e, err = some e ∧ IsEmptyConfig e = false) ∨
          overridden = true ∨
          (∃ icc, config.icc = some icc ∧ icc.PossibleRes = false)) :
    config.Namespace env
      = Except.ok ((config.createClientConfig env).1, ns, overridden, err) := by
  have hicc : (config.createClientConfig env).1.icc = config.icc :=
    (createClientConfig_fields config env).2.2.2.2.2
  unfold DeferredLoadingClientConfig.Namespace
  rcases h2 with ⟨e, he, hhard⟩ | hov | ⟨icc, hi, hp⟩
  · simp only [h1, h0, he, hhard]
    simp
  · simp only [h1, h0, hov]
    simp
  · simp only [h1, h0, hicc, hi]
    simp [hp]

/-- C9: the public constructor leaves the in-cluster detector field nil, so
a `ClientConfig` call that falls through to the in-cluster check, and a
`Namespace` call that reaches `config.icc.Possible()` (no hard error, not
overridden), dispatch a method on a nil interface — the fallback is only
reachable when `icc` is injected separately. -/
theorem NewImpersonationClientConfig_nil_icc (loader : Loader)
    (overrides : ConfigOverrides) (user : String) (groups : List String) :
    (NewImpersonationClientConfig loader overrides user groups).icc = none ∧
    (∀ (env : ClientcmdEnv) (config : DeferredLoadingClientConfig) (cc : ClientConfigIface),
       (config.createClientConfig env).2 = Except.ok cc → config.icc = none →
       mergedEmptyOrDefault config.loader cc.ClientConfigRes →
       config.ClientConfig env = Except.error GoPanic.nilInterfaceDispatch) ∧
    (∀ (env : ClientcmdEnv) (config : DeferredLoadingClientConfig) (cc : ClientConfigIface),
       (config.createClientConfig env).2 = Except.ok cc → config.icc = none →
       (cc.NamespaceRes.2.2 = none ∨
         ∃ e, cc.NamespaceRes.2.2 = some e ∧ IsEmptyConfig e = true) →
       cc.NamespaceRes.2.1 = false →
       config.Namespace env = Except.error GoPanic.nilInterfaceDispatch) := by
  refine ⟨rfl, ?_, ?_⟩
  · intro env config cc h1 hicc0 h2
    rw [ClientConfig_fallthrough env config cc h1 h2, hicc0]
  · intro env config cc h1 hicc0 herr hov
    have hicc : (config.createClientConfig env).1.icc = config.icc :=
      (createClientConfig_fields config env).2.2.2.2.2
    unfold DeferredLoadingClientConfig.Namespace
    rcases herr with hnone | ⟨e, he, hemp⟩
    · simp only [h1, hnone, hov, hicc, hicc0]
      simp
    · simp only [h1, he, hemp, hov, hicc, hicc0]
      simp

/-- C10: the public constructor leaves `fallbackReader` nil, and with a nil
`fallbackReader` a resolving call that performs the load always builds the
merged handle with `NewNonInteractiveClientConfig`; the interactive
constructor is unreachable through the public interface. -/
theorem NewImpersonationClientConfig_nonInteractive (loader : Loader)
    (overrides : ConfigOverrides) (user : String) (groups : List String) :
    (NewImpersonationClientConfig loader overrides user groups).fallbackReader = none ∧
    ∀ (env : ClientcmdEnv) (config : DeferredLoadingClientConfig) (m : ClientcmdapiConfig),
      config.fallbackReader = none → config.clientConfig = none →
      config.loader.LoadRes = Except.ok m →
      config.createClientConfig env =
        ({ config with clientConfig := some (env.NewNonInteractiveClientConfig m
             config.overrides.CurrentContext config.overrides config.loader) },
         Except.ok (env.NewNonInteractiveClientConfig m
             config.overrides.CurrentContext config.overrides config.loader)) := by
  refine ⟨rfl, ?_⟩
  intro env config m hr hc hl
  unfold DeferredLoadingClientConfig.createClientConfig
  simp only [hc, hl, hr]

/-! Concrete fixtures used by the closed witness theorems below. -/

/-- An error the `IsEmptyConfig` classification accepts. -/
def errEmpty : GoError := { msg := "no configuration has been provided", emptyConfig := true }

/-- A hard error: not the empty-configuration classification. -/
def errHard : GoError := { msg := "malformed kubeconfig", emptyConfig := false }

/-- The zero impersonation block. -/
def impZero : ImpersonationConfig := { UserName := "", Groups := [], Extra := [] }

/-- An explicit (non-default) merged client config. -/
def mcExplicit : RestclientConfig :=
  { Host := "https://example.test:6443", Impersonate := impZero }

/-- The client config the in-cluster detector would derive. -/
def mcInCluster : RestclientConfig :=
  { Host := "https://in-cluster.test", Impersonate := impZero }

/-- A raw kubeconfig whose current context explicitly sets namespace
`"default"`. -/
def rawExplicitDefault : ClientcmdapiConfig :=
  { CurrentContext := "main", Contexts := [("main", { Namespace := "default" })] }

/-- A merged handle whose retrieval succeeds with `mcExplicit`. -/
def ifaceExplicit : ClientConfigIface :=
  { ClientConfigRes := (some mcExplicit, none),
    RawConfigRes := (rawExplicitDefault, none),
    NamespaceRes := ("default", false, none) }

/-- A merged handle whose retrieval fails with the empty-config error and a
nil config pointer. -/
def ifaceEmpty : ClientConfigIface :=
  { ClientConfigRes := (none, some errEmpty),
    RawConfigRes := (rawExplicitDefault, none),
    NamespaceRes := ("default", false, none) }

/-- A merged handle whose retrieval fails with the empty-config error but a
non-nil config pointer. -/
def ifaceEmptyMc : ClientConfigIface :=
  { ClientConfigRes := (some mcExplicit, some errEmpty),
    RawConfigRes := (rawExplicitDefault, none),
    NamespaceRes := ("default", false, none) }

/-- A merged handle whose namespace retrieval fails hard. -/
def ifaceHard : ClientConfigIface :=
  { ClientConfigRes := (none, some errHard),
    RawConfigRes := (rawExplicitDefault, none),
    NamespaceRes := ("ns1", false, some errHard) }

/-- An available in-cluster detector. -/
def iccOn : InClusterConfig :=
  { PossibleRes := true, ClientConfigRes := (some mcInCluster, none),
    NamespaceRes := ("kube-system", false, none) }

/-- An unavailable in-cluster detector. -/
def iccOff : InClusterConfig :=
  { PossibleRes := false, ClientConfigRes := (none, none),
    NamespaceRes := ("", false, none) }

/-- A loader that succeeds and classifies nothing as default. -/
def loaderOk : Loader :=
  { LoadRes := Except.ok rawExplicitDefault, IsDefaultConfig := fun _ => false }

/-- A loader whose `Load` fails. -/
def loaderFail : Loader :=
  { LoadRes := Except.error errHard, IsDefaultConfig := fun _ => false }

/-- A loader that succeeds and classifies everything as default. -/
def loaderDefault : Loader :=
  { LoadRes := Except.ok rawExplicitDefault, IsDefaultConfig := fun _ => true }

/-- An environment whose clientcmd constructors both yield
`ifaceExplicit`. -/
def envFix : ClientcmdEnv :=
  { NewInteractiveClientConfig := fun _ _ _ _ _ => ifaceExplicit,
    NewNonInteractiveClientConfig := fun _ _ _ _ => ifaceExplicit }

/-- Resolver with a cached explicit (non-default) merged handle and an
available detector. -/
def cfgExplicit : DeferredLoadingClientConfig :=
  { loader := loaderOk, overrides := { CurrentContext := "main" },
    fallbackReader := none, user := "tiller", groups := ["system:masters"],
    clientConfig := some ifaceExplicit, icc := some iccOn }

/-- Resolver whose cached handle reports empty config (nil pointer), with an
available detector. -/
def cfgEmptyOn : DeferredLoadingClientConfig :=
  { cfgExplicit with clientConfig := some ifaceEmpty }

/-- Resolver whose cached handle reports empty config (nil pointer), with an
unavailable detector. -/
def cfgEmptyOff : DeferredLoadingClientConfig :=
  { cfgExplicit with clientConfig := some ifaceEmpty, icc := some iccOff }

/-- Resolver whose cached handle reports empty config with a non-nil
pointer, detector unavailable. -/
def cfgEmptyMcOff : DeferredLoadingClientConfig :=
  { cfgExplicit with clientConfig := some ifaceEmptyMc, icc := some iccOff }

/-- Resolver whose loader classifies the merged result as default, detector
unavailable. -/
def cfgDefaultOff : DeferredLoadingClientConfig :=
  { cfgExplicit with loader := loaderDefault, icc := some iccOff }

/-- Fresh resolver (no cache) whose loader fails. -/
def cfgFresh : DeferredLoadingClientConfig :=
  { cfgExplicit with loader := loaderFail, clientConfig := none }

/-- Resolver whose cached handle's namespace retrieval fails hard. -/
def cfgNsHard : DeferredLoadingClientConfig :=
  { cfgExplicit with clientConfig := some ifaceHard }

/-- A resolver built by the public constructor (nil `icc`, nil
`fallbackReader`), over the default-classifying loader. -/
def cfgNilIcc : DeferredLoadingClientConfig :=
  NewImpersonationClientConfig loaderDefault { CurrentContext := "main" }
    "tiller" ["system:masters"]

/-- C1 witness: the explicit merged config is returned as-is even though the
detector in `cfgExplicit` is available. -/
theorem ClientConfig_explicit_precedence_w :
    cfgExplicit.ClientConfig envFix = Except.ok (cfgExplicit, some mcExplicit, none) :=
  ClientConfig_explicit_precedence envFix cfgExplicit ifaceExplicit mcExplicit rfl rfl rfl

/-- C2 witness: with an empty-config result and an available detector, the
detector's client config is returned. -/
theorem ClientConfig_inCluster_fallback_w :
    cfgEmptyOn.ClientConfig envFix = Except.ok (cfgEmptyOn, iccOn.ClientConfigRes) :=
  ClientConfig_inCluster_fallback envFix cfgEmptyOn ifaceEmpty iccOn rfl
    (Or.inl ⟨errEmpty, rfl, rfl⟩) rfl rfl

/-- C3 witness: on the final fallback branch the returned config carries the
resolver's identity in its impersonation fields. -/
theorem ClientConfig_identity_scoping_w :
    cfgDefaultOff.ClientConfig envFix
      = Except.ok (cfgDefaultOff,
          some { Host := "https://example.test:6443",
                 Impersonate :=
                   { UserName := "tiller", Groups := ["system:masters"], Extra := [] } },
          none) :=
  (ClientConfig_identity_scoping envFix cfgDefaultOff ifaceExplicit rfl).2.2
    iccOff mcExplicit rfl rfl (Or.inr (Or.inr ⟨mcExplicit, rfl, rfl⟩)) rfl

/-- C4 counterexample: an empty-config error with a nil merged config and an
unavailable detector makes `ClientConfig` write through a nil pointer — it
does not return the merged configuration with the retrieval error. -/
theorem ClientConfig_nil_deref_counterexample :
    cfgEmptyOff.ClientConfig envFix = Except.error GoPanic.nilPointerDeref := rfl

/-- C4 witness (amended): with a non-nil merged config the identity is
applied and the empty-config error is returned alongside it. -/
theorem ClientConfig_empty_error_fallback_w :
    cfgEmptyMcOff.ClientConfig envFix
      = Except.ok (cfgEmptyMcOff,
          some { Host := "https://example.test:6443",
                 Impersonate :=
                   { UserName := "tiller", Groups := ["system:masters"], Extra := [] } },
          some errEmpty) :=
  (ClientConfig_empty_error_fallback envFix cfgEmptyMcOff ifaceEmptyMc errEmpty iccOff
    rfl rfl rfl rfl rfl).1 mcExplicit rfl

/-- C5 witness: with the cache set, resolution returns the cached handle and
the same result even under a loader whose `Load` fails. -/
theorem createClientConfig_cached_w :
    cfgExplicit.createClientConfig envFix = (cfgExplicit, Except.ok ifaceExplicit) ∧
    DeferredLoadingClientConfig.createClientConfig
        { cfgExplicit with loader := loaderFail } envFix
      = ({ cfgExplicit with loader := loaderFail }, Except.ok ifaceExplicit) := by
  have h := createClientConfig_cached envFix cfgExplicit ifaceExplicit rfl
  exact ⟨h.1, h.2 loaderFail⟩

/-- C6 witness: a failed load propagates the error with the state unchanged,
and a retry under a succeeding loader resolves. -/
theorem createClientConfig_load_failure_w :
    cfgFresh.createClientConfig envFix = (cfgFresh, Except.error errHard) ∧
    ∃ cc, (DeferredLoadingClientConfig.createClientConfig
        { (cfgFresh.createClientConfig envFix).1 with loader := loaderOk } envFix).2
      = Except.ok cc := by
  have h := createClientConfig_load_failure envFix cfgFresh errHard rfl rfl
  exact ⟨h.1, h.2 loaderOk rawExplicitDefault rfl⟩

/-- C7 witness: an explicitly-set default namespace is returned as
`(default, false, nil)` even though `cfgExplicit`'s detector is available
with namespace `kube-system`. -/
theorem Namespace_explicit_default_w :
    cfgExplicit.Namespace envFix = Except.ok (cfgExplicit, NamespaceDefault, false, none) :=
  Namespace_explicit_default envFix cfgExplicit ifaceExplicit iccOn rawExplicitDefault
    { Namespace := "default" } none rfl rfl (Or.inl rfl) rfl rfl rfl (by decide) (by decide)

/-- C8 witness: a hard namespace error is returned unchanged, with no
fallback, despite the available detector. -/
theorem Namespace_no_fallback_w :
    cfgNsHard.Namespace envFix
      = Except.ok (cfgNsHard, "ns1", false, some errHard) :=
  Namespace_no_fallback envFix cfgNsHard ifaceHard "ns1" false (some errHard) rfl rfl
    (Or.inl ⟨errHard, rfl, rfl⟩)

/-- C9 witness: a constructor-built resolver has a nil detector, and both
operations panic on the nil interface once they reach the availability
check. -/
theorem NewImpersonationClientConfig_nil_icc_w :
    cfgNilIcc.icc = none ∧
    cfgNilIcc.ClientConfig envFix = Except.error GoPanic.nilInterfaceDispatch ∧
    cfgNilIcc.Namespace envFix = Except.error GoPanic.nilInterfaceDispatch := by
  have h := NewImpersonationClientConfig_nil_icc loaderDefault { CurrentContext := "main" }
    "tiller" ["system:masters"]
  exact ⟨h.1,
    h.2.1 envFix cfgNilIcc ifaceExplicit rfl rfl (Or.inr (Or.inr ⟨mcExplicit, rfl, rfl⟩)),
    h.2.2 envFix cfgNilIcc ifaceExplicit rfl rfl (Or.inl rfl) rfl⟩

/-- C10 witness: a constructor-built resolver has a nil `fallbackReader`,
and a resolving call builds the non-interactive handle. -/
theorem NewImpersonationClientConfig_nonInteractive_w :
    cfgNilIcc.fallbackReader = none ∧
    cfgNilIcc.createClientConfig envFix
      = ({ cfgNilIcc with clientConfig := some ifaceExplicit }, Except.ok ifaceExplicit) := by
  have h := NewImpersonationClientConfig_nonInteractive loaderDefault
    { CurrentContext := "main" } "tiller" ["system:masters"]
  exact ⟨h.1, h.2 envFix cfgNilIcc rawExplicitDefault rfl rfl rfl⟩
